import Mathlib

/-
Shallow embedding of the snow-depth-sensors pipeline
(src/snow_sensors: altoadige_data_fetcher.py, trentino_data_fetcher.py,
retriever.py, supabase_uploader.py).

Tables are modelled as lists of rows; pandas cell values become the
inductive type Val, whose constructor nan models every pandas null
marker (np.nan, pd.NaT, missing value). HTTP traffic is modelled by
passing the already-parsed response tables (and, for the uploader, a
response record) as explicit arguments; the requests a function would
issue are returned as data.
-/

/-- Timezone-aware or naive datetime value, as produced by the external
dateutil parser: tzOffsetMinutes is none for a naive datetime. -/
structure PyDateTime where
  year : Nat
  month : Nat
  day : Nat
  hour : Nat
  minute : Nat
  second : Nat
  tzOffsetMinutes : Option Int
deriving DecidableEq, Repr

/-- A pandas cell value: a string, a number (Python floats modelled as
exact rationals; no claim depends on float rounding), a timestamp, or
the null marker (np.nan / pd.NaT / missing). -/
inductive Val where
  | str : String → Val
  | num : Rat → Val
  | time : PyDateTime → Val
  | nan : Val
deriving DecidableEq, Repr

/-- pd.isna on a cell value. -/
def isnaV : Val → Bool
  | .nan => true
  | _ => false

/-- Digit character to its numeric value. -/
def d2n (c : Char) : Nat := c.toNat - 48

/-- Timezone suffix handling of the external dateutil parser: empty
suffix gives a naive result; the recognised names Z, UTC, GMT give
offset zero; any other short alphabetic token (such as CEST) is an
unknown timezone name, which dateutil ignores, giving a naive result;
anything else fails to parse. -/
def parseTzToken (cs : List Char) : Except Unit (Option Int) :=
  if cs = [] then .ok none
  else if cs = ['Z'] || cs = ['U', 'T', 'C'] || cs = ['G', 'M', 'T'] then .ok (some 0)
  else if cs.length ≤ 5 && cs.all Char.isAlpha then .ok none
  else .error ()

/-- Fragment of the external dateutil parser used by both fetchers:
an ISO combined date-time YYYY-MM-DDTHH:MM:SS followed by an optional
alphabetic timezone token, with basic range validation. Strings outside
this fragment fail, modelling the ParserError raised by dateutil. -/
def dateutilParse (s : String) : Except Unit PyDateTime :=
  match s.toList with
  | y1 :: y2 :: y3 :: y4 :: '-' :: m1 :: m2 :: '-' :: d1 :: d2c :: 'T' ::
      h1 :: h2 :: ':' :: i1 :: i2 :: ':' :: s1 :: s2 :: rest =>
    if [y1, y2, y3, y4, m1, m2, d1, d2c, h1, h2, i1, i2, s1, s2].all Char.isDigit then
      let y := ((d2n y1 * 10 + d2n y2) * 10 + d2n y3) * 10 + d2n y4
      let mo := d2n m1 * 10 + d2n m2
      let dy := d2n d1 * 10 + d2n d2c
      let h := d2n h1 * 10 + d2n h2
      let mi := d2n i1 * 10 + d2n i2
      let se := d2n s1 * 10 + d2n s2
      if 1 ≤ mo && mo ≤ 12 && 1 ≤ dy && dy ≤ 31 && h < 24 && mi < 60 && se < 60 then
        match parseTzToken rest with
        | .ok tz => .ok ⟨y, mo, dy, h, mi, se, tz⟩
        | .error _ => .error ()
      else .error ()
    else .error ()
  | _ => .error ()

/-- parse_date_safe, identical in both fetchers: parse with dateutil,
strip the timezone if one is present, and on a parse failure
(ValueError/TypeError, including ParserError) return the null marker
pd.NaT instead of raising. A non-string cell makes dateutil raise a
TypeError, also caught. -/
def parse_date_safe (v : Val) : Val :=
  match v with
  | .str s =>
    match dateutilParse s with
    | .ok dt =>
      match dt.tzOffsetMinutes with
      | some _ => .time { dt with tzOffsetMinutes := none }
      | none => .time dt
    | .error _ => .nan
  | _ => .nan

/-- pandas DataFrame.join with how equal to inner, on the index key:
every left row is paired with every right row carrying the same key,
in left-row order. -/
def joinInner {α β : Type} (xs : List (String × α)) (ys : List (String × β)) :
    List (String × α × β) :=
  xs.flatMap (fun x => (ys.filter (fun y => y.1 == x.1)).map (fun y => (x.1, x.2, y.2)))

/-- An Alto Adige measurement row after read_csv with index SCODE,
column selection to DATE and VALUE and the rename to date and hs. -/
structure AMeas where
  date : Val
  hs : Val
deriving DecidableEq, Repr

/-- An Alto Adige station row after read_csv with index SCODE, column
selection and the rename to name_de, name_it, name_en, longitude,
latitude. -/
structure AStation where
  name_de : Val
  name_it : Val
  name_en : Val
  longitude : Val
  latitude : Val
deriving DecidableEq, Repr

/-- A row of the Alto Adige fetcher result, column order date, hs,
name_de, name_it, name_en, longitude, latitude (the SCODE index is
dropped by reset_index with drop equal to true). -/
structure ARow where
  date : Val
  hs : Val
  name_de : Val
  name_it : Val
  name_en : Val
  longitude : Val
  latitude : Val
deriving DecidableEq, Repr

/-- Application of parse_date_safe to the date column of the Alto Adige
measurement table. -/
def parseDatesA (ms : List (String × AMeas)) : List (String × AMeas) :=
  ms.map (fun x => (x.1, { x.2 with date := parse_date_safe x.2.date }))

/-- Whether a joined Alto Adige row carries a null in any column, the
condition dropna uses. -/
def aRowHasNan (r : ARow) : Bool :=
  isnaV r.date || isnaV r.hs || isnaV r.name_de || isnaV r.name_it ||
    isnaV r.name_en || isnaV r.longitude || isnaV r.latitude

/-- The inner join of the date-parsed Alto Adige measurement table with
the station table, before the null drop. -/
def altoAdigeJoined (ms : List (String × AMeas)) (ss : List (String × AStation)) :
    List ARow :=
  (joinInner (parseDatesA ms) ss).map
    (fun x => ⟨x.2.1.date, x.2.1.hs, x.2.2.name_de, x.2.2.name_it, x.2.2.name_en,
      x.2.2.longitude, x.2.2.latitude⟩)

/-- AltoAdigeDataFetcher.fetch_snow_depth_data over already-parsed
response tables: parse the date column, inner-join with stations on
SCODE, drop the index, and drop every row holding any null. The date
argument is received but never read. -/
def fetchAltoAdigeData (date : String) (ms : List (String × AMeas))
    (ss : List (String × AStation)) : List ARow :=
  let _ := date
  (altoAdigeJoined ms ss).filter (fun r => !aRowHasNan r)

/-- An HTTP request as issued through the requests session: URL and
query parameters. -/
structure HttpRequest where
  url : String
  params : List (String × String)
deriving DecidableEq, Repr

/-- BASE_URL of the Alto Adige fetcher. -/
def altoAdigeBaseUrl : String :=
  "http://daten.buergernetz.bz.it/services/meteo/v1/sensors"

/-- STATIONS_URL of the Alto Adige fetcher. -/
def altoAdigeStationsUrl : String :=
  "http://dati.retecivica.bz.it/services/meteo/v1/stations"

/-- The two GET requests AltoAdigeDataFetcher.fetch_snow_depth_data
issues, as a function of its date argument: the sensor feed with fixed
parameters output_format CSV and sensor_code HS, then the station feed
with fixed parameters output_format CSV and coord_sys EPSG 4326. -/
def altoAdigeRequests (date : String) : List HttpRequest :=
  let _ := date
  [ ⟨altoAdigeBaseUrl, [("output_format", "CSV"), ("sensor_code", "HS")]⟩,
    ⟨altoAdigeStationsUrl, [("output_format", "CSV"), ("coord_sys", "EPSG:4326")]⟩ ]

/-- A Trentino measurement row after read_csv with delimiter semicolon,
index codice_campo, and the rename of HS, HN, DataRilievo to hs, hn,
date. The many remaining CSV columns are projected away by the final
eight-column selection of the fetcher and are not carried here. -/
structure TMeas where
  date : Val
  hs : Val
  hn : Val
deriving DecidableEq, Repr

/-- A Trentino station row as parsed from the camponeve XML elements,
after set_index on codice: the remaining fields nome, lat, lon. -/
structure TStationRaw where
  nome : Val
  lat : Val
  lon : Val
deriving DecidableEq, Repr

/-- A Trentino station row after the rename of nome, lat, lon to
name_it, latitude, longitude and the synthesis of name_en and name_de
as copies of name_it. -/
structure TStation where
  name_it : Val
  latitude : Val
  longitude : Val
  name_en : Val
  name_de : Val
deriving DecidableEq, Repr

/-- The station-table processing of the Trentino fetcher: rename and
copy the single name into the other two language columns. -/
def processTStations (ss : List (String × TStationRaw)) : List (String × TStation) :=
  ss.map (fun x => (x.1,
    { name_it := x.2.nome, latitude := x.2.lat, longitude := x.2.lon,
      name_en := x.2.nome, name_de := x.2.nome }))

/-- Application of parse_date_safe to the date column of the Trentino
measurement table. -/
def parseDatesT (ms : List (String × TMeas)) : List (String × TMeas) :=
  ms.map (fun x => (x.1, { x.2 with date := parse_date_safe x.2.date }))

/-- A result table with named columns: the list rows holds one cell
list per row, positionally aligned with cols. -/
structure Frame where
  cols : List String
  rows : List (List Val)
deriving DecidableEq, Repr

/-- The eight columns selected and returned by the Trentino fetcher,
in order. -/
def trentinoColumns : List String :=
  ["date", "hs", "hn", "name_it", "name_en", "name_de", "longitude", "latitude"]

/-- Split a character list on the dash character, with the semantics of
the Python str.split method for a one-character separator: the empty
input gives one empty piece, and adjacent separators give empty
pieces. -/
def splitDash : List Char → List (List Char)
  | [] => [[]]
  | c :: rest =>
    let r := splitDash rest
    if c = '-' then [] :: r
    else
      match r with
      | h :: t => (c :: h) :: t
      | [] => [[c]]

/-- The Python expression date.split on a dash, over strings. -/
def pySplitDash (s : String) : List String :=
  (splitDash s.toList).map (fun cs => String.mk cs)

/-- The query parameters of the Trentino measurement request: the date
argument is split on the dash character and its first three pieces are
read by position, so fewer than three pieces raise an IndexError; the
pieces themselves are passed through with no calendar validation. -/
def trentinoParams (date : String) : Except String (List (String × String)) :=
  match pySplitDash date with
  | a :: m :: g :: _ => .ok [("anno", a), ("mese", m), ("giorno", g)]
  | _ => .error "IndexError"

/-- The joined Trentino table before the eight-column selection. -/
def trentinoJoined (ms : List (String × TMeas)) (ss : List (String × TStationRaw)) :
    List (String × TMeas × TStation) :=
  joinInner (parseDatesT ms) (processTStations ss)

/-- TrentinoDataFetcher.fetch_snow_depth_data over already-parsed
response tables: build the request parameters from the date argument
(possibly raising an IndexError), parse the date column, process the
station table, inner-join on the station code, drop the index, and
select exactly the eight output columns. No null drop is applied. -/
def fetchTrentinoData (date : String) (ms : List (String × TMeas))
    (ss : List (String × TStationRaw)) : Except String Frame :=
  match trentinoParams date with
  | .error e => .error e
  | .ok _ =>
    .ok { cols := trentinoColumns,
          rows := (trentinoJoined ms ss).map
            (fun x => [x.2.1.date, x.2.1.hs, x.2.1.hn, x.2.2.name_it, x.2.2.name_en,
              x.2.2.name_de, x.2.2.longitude, x.2.2.latitude]) }

/-- An indexed table, as held by pandas around the concat call of the
retriever: a column list, an index label list, and positional rows. -/
structure IFrame where
  cols : List String
  index : List Int
  rows : List (List Val)
deriving DecidableEq, Repr

/-- Column union as pandas concat computes it: the columns of the first
frame, then the columns of the second not already present. -/
def colUnion (c1 c2 : List String) : List String :=
  c1 ++ c2.filter (fun c => !c1.contains c)

/-- The value one aligned cell receives: the cell the row carries under
that column name, or the null marker when the row has no such
column. -/
def alignCell (old : List String) (row : List Val) (c : String) : Val :=
  match (old.zip row).find? (fun p => p.1 == c) with
  | some p => p.2
  | none => Val.nan

/-- Reindex one positional row from its own column list onto a larger
column list, filling columns the row does not have with the null
marker. -/
def alignRow (old : List String) (row : List Val) (new : List String) : List Val :=
  new.map (alignCell old row)

/-- pd.concat of two frames with ignore_index true: rows of the first
frame then rows of the second, each aligned onto the united column
list, under a fresh contiguous zero-based index; the input indices are
discarded. -/
def concatIgnoreIndex (a b : IFrame) : IFrame :=
  { cols := colUnion a.cols b.cols,
    index := (List.range (a.rows.length + b.rows.length)).map Int.ofNat,
    rows := a.rows.map (fun r => alignRow a.cols r (colUnion a.cols b.cols)) ++
            b.rows.map (fun r => alignRow b.cols r (colUnion a.cols b.cols)) }

/-- Cell lookup in an indexed frame by row position and column name. -/
def IFrame.cell (f : IFrame) (i : Nat) (c : String) : Option Val :=
  (f.rows[i]?).bind (fun row => ((f.cols.zip row).find? (fun p => p.1 == c)).map Prod.snd)

/-- A DataFrame row as yielded by iterrows: its index label and its
cells keyed by column name. -/
structure PyRow where
  idx : Int
  cells : List (String × Val)
deriving DecidableEq, Repr

/-- Series.get on a row: the cell under a column name, or Python None
when the column is absent. -/
def PyRow.get (r : PyRow) (c : String) : Option Val :=
  (r.cells.find? (fun p => p.1 == c)).map Prod.snd

/-- pd.isna applied to a row lookup result: Python None and the null
marker are both na. -/
def isnaObj : Option Val → Bool
  | none => true
  | some v => isnaV v

/-- The skip condition of SupabaseUploader.upload: a null or missing
hs, latitude or longitude. -/
def skipRow (r : PyRow) : Bool :=
  isnaObj (r.get "hs") || isnaObj (r.get "latitude") || isnaObj (r.get "longitude")

/-- Python truthiness of a cell value: the empty string and zero are
falsy; a NaN float and a timestamp are truthy. -/
def pyTruthy : Val → Bool
  | .str s => !s.isEmpty
  | .num q => decide (q ≠ 0)
  | .time _ => true
  | .nan => true

/-- Python truthiness of a row lookup result: None is falsy. -/
def pyTruthyObj : Option Val → Bool
  | none => false
  | some v => pyTruthy v

/-- The Python or operator over row lookup results: the left operand if
it is truthy, otherwise the right operand. -/
def pyOr (a b : Option Val) : Option Val :=
  if pyTruthyObj a then a else b

/-- Python str applied to a cell value. NaN prints as nan; number and
timestamp rendering is a placeholder, as no claim evaluates them. -/
def pyStr : Val → String
  | .str s => s
  | .num q => toString q
  | .time _ => "timestamp"
  | .nan => "nan"

/-- Python float applied to a cell value. A numeric or NaN input
converts; a timestamp raises a TypeError. A numeric string would also
convert in Python, but string-to-float parsing is not modelled: the
claims evaluate float only on numeric and NaN cells. -/
def pyFloat : Val → Except String Val
  | .num q => .ok (.num q)
  | .nan => .ok .nan
  | .str _ => .error "ValueError"
  | .time _ => .error "TypeError"

/-- The station-name expression of the uploader: name_it or name_de or
name_en or the synthesized fallback, combined with the Python or
operator. The final operand is a nonempty string, hence the chain is
always a value; getD never falls through. -/
def stationNameOf (r : PyRow) : Val :=
  (pyOr (pyOr (pyOr (r.get "name_it") (r.get "name_de")) (r.get "name_en"))
    (some (.str ("Station_" ++ toString r.idx)))).getD (.str "")

/-- The station-code expression of the uploader: station_code or SCODE
or the synthesized fallback, combined with the Python or operator. -/
def stationCodeOf (source : String) (r : PyRow) : Val :=
  (pyOr (pyOr (r.get "station_code") (r.get "SCODE"))
    (some (.str (source ++ "_" ++ toString r.idx)))).getD (.str "")

/-- One record of the upsert batch POSTed by the uploader. -/
structure UploadRecord where
  station_code : String
  station_name : String
  latitude : Val
  longitude : Val
  hs : Val
  measurement_date : String
  source : String
  hn : Option Val
  elevation : Option Val
deriving DecidableEq, Repr

/-- Whether the guard of an optional-field branch holds: the column is
present in the row and its value is not na. -/
def optFieldGuard (r : PyRow) (c : String) : Bool :=
  match r.get c with
  | some v => !isnaV v
  | none => false

/-- The value an optional-field branch adds: the float conversion of
the cell, or nothing when the conversion raises (silently passed). -/
def optFieldValue (r : PyRow) (c : String) : Option Val :=
  match r.get c with
  | some v => (pyFloat v).toOption
  | none => none

/-- The record the uploader builds for one non-skipped row: bracket
access to latitude, longitude and hs (KeyError if absent, ValueError or
TypeError from float propagate uncaught), the name and code chains, the
measurement date and source tag, and the optional hn and elevation
fields (elevation from the elevation column, else from ALT). -/
def buildRecord (source mdate : String) (r : PyRow) : Except String UploadRecord :=
  match (match r.get "latitude" with
         | some v => pyFloat v
         | none => .error "KeyError" : Except String Val) with
  | .error e => .error e
  | .ok latv =>
    match (match r.get "longitude" with
           | some v => pyFloat v
           | none => .error "KeyError" : Except String Val) with
    | .error e => .error e
    | .ok lonv =>
      match (match r.get "hs" with
             | some v => pyFloat v
             | none => .error "KeyError" : Except String Val) with
      | .error e => .error e
      | .ok hsv =>
        .ok { station_code := pyStr (stationCodeOf source r),
              station_name := pyStr (stationNameOf r),
              latitude := latv,
              longitude := lonv,
              hs := hsv,
              measurement_date := mdate,
              source := source,
              hn := if optFieldGuard r "hn" then optFieldValue r "hn" else none,
              elevation :=
                if optFieldGuard r "elevation" then optFieldValue r "elevation"
                else if optFieldGuard r "ALT" then optFieldValue r "ALT"
                else none }

/-- The record loop of the uploader: skip rows failing the essential
check, build a record for the rest; an exception from a record build
propagates. -/
def buildRecords (source mdate : String) : List PyRow → Except String (List UploadRecord)
  | [] => .ok []
  | r :: rest =>
    if skipRow r then buildRecords source mdate rest
    else
      match buildRecord source mdate r with
      | .error e => .error e
      | .ok rcd =>
        match buildRecords source mdate rest with
        | .error e => .error e
        | .ok rs => .ok (rcd :: rs)

/-- A fully valid row in the sense of the upload claims: the essential
cells hs, latitude and longitude are present numeric values, so the
skip check passes and the float conversions succeed. -/
def essNum (r : PyRow) : Prop :=
  (∃ q, r.get "hs" = some (.num q)) ∧ (∃ q, r.get "latitude" = some (.num q))
    ∧ (∃ q, r.get "longitude" = some (.num q))

/-- The statistics dictionary the uploader returns: on the two early
zero returns the date key is absent. -/
structure UploadResult where
  uploaded : Nat
  source : String
  date : Option String
deriving DecidableEq, Repr

/-- The HTTP response the upsert POST would receive: whether
raise_for_status passes, and the response body text. -/
structure HttpResp where
  ok : Bool
  text : String
deriving DecidableEq, Repr

/-- SupabaseUploader.upload: result (ok, or the exception raised), the
POST body if and only if a network call was made, and the log lines.
An empty frame and an all-skipped frame return zero without a call; an
HTTP error is logged together with the response text and re-raised. -/
def upload (df : List PyRow) (source mdate : String) (resp : HttpResp) :
    Except String UploadResult × Option (List UploadRecord) × List String :=
  if df.isEmpty then
    (.ok ⟨0, source, none⟩, none, ["No data to upload for " ++ source])
  else
    match buildRecords source mdate df with
    | .error e => (.error e, none, [])
    | .ok records =>
      if records.isEmpty then
        (.ok ⟨0, source, none⟩, none, ["No valid records to upload for " ++ source])
      else if resp.ok then
        (.ok ⟨records.length, source, some mdate⟩, some records,
          ["Successfully uploaded " ++ toString records.length ++ " records for " ++ source])
      else
        (.error "HTTPError", some records,
          ["Supabase upload failed: HTTPError", "Response: " ++ resp.text])

/-- Iteration over an indexed frame as iterrows yields it: index labels
paired with rows, cells keyed by column name. -/
def toPyRows (f : IFrame) : List PyRow :=
  (f.index.zip f.rows).map (fun p => ⟨p.1, f.cols.zip p.2⟩)

/-- The retriever helper _upload_to_supabase: skipped entirely when the
environment is not configured; otherwise the try body uploads the first
nonempty frame then the second, and the first raised exception aborts
the rest of the body and is caught and logged, never re-raised. Returns
the log lines. -/
def uploadToSupabaseGuarded (df1 df2 : List PyRow) (configured : Bool) (mdate : String)
    (resp1 resp2 : HttpResp) : List String :=
  if !configured then
    ["Supabase not configured (SUPABASE_URL and SUPABASE_SERVICE_KEY required)"]
  else
    match (if df1.isEmpty then .ok [] else
      match upload df1 "alto_adige" mdate resp1 with
      | (.ok r1, _, ls1) =>
        .ok (ls1 ++ ["Supabase: uploaded " ++ toString r1.uploaded ++ " Alto Adige records"])
      | (.error e, _, ls1) => .error (ls1, e) :
        Except (List String × String) (List String)) with
    | .error (ls1, e) => ls1 ++ ["Supabase upload failed: " ++ e]
    | .ok ls1 =>
      match (if df2.isEmpty then .ok [] else
        match upload df2 "trentino" mdate resp2 with
        | (.ok r2, _, ls2) =>
          .ok (ls2 ++ ["Supabase: uploaded " ++ toString r2.uploaded ++ " Trentino records"])
        | (.error e, _, ls2) => .error (ls2, e) :
          Except (List String × String) (List String)) with
      | .error (ls2, e) => ls1 ++ ls2 ++ ["Supabase upload failed: " ++ e]
      | .ok ls2 => ls1 ++ ls2

/-- The retriever after both fetches succeeded: optionally run the
guarded upload (which only produces logs and never raises), then
concatenate the two tables with a fresh index and return the result. -/
def retrieveRun (df1 df2 : IFrame) (uploadSupabase configured : Bool) (mdate : String)
    (resp1 resp2 : HttpResp) : IFrame × List String :=
  let ulogs :=
    if uploadSupabase then
      uploadToSupabaseGuarded (toPyRows df1) (toPyRows df2) configured mdate resp1 resp2
    else []
  (concatIgnoreIndex df1 df2, ulogs)

/-
Helper lemmas.
-/

/-- A station code occurs among the keys of an inner join exactly when
it occurs among the keys of both inputs. -/
theorem joinInner_codes {α β : Type} (xs : List (String × α)) (ys : List (String × β))
    (c : String) :
    (∃ p ∈ joinInner xs ys, p.1 = c) ↔
      (∃ x ∈ xs, x.1 = c) ∧ (∃ y ∈ ys, y.1 = c) := by
  constructor
  · rintro ⟨p, hp, rfl⟩
    simp only [joinInner, List.mem_flatMap, List.mem_map, List.mem_filter] at hp
    obtain ⟨x, hx, y, ⟨hy, hyx⟩, rfl⟩ := hp
    exact ⟨⟨x, hx, rfl⟩, ⟨y, hy, by simpa using hyx⟩⟩
  · rintro ⟨⟨x, hx, rfl⟩, ⟨y, hy, hyc⟩⟩
    refine ⟨(x.1, x.2, y.2), ?_, rfl⟩
    simp only [joinInner, List.mem_flatMap, List.mem_map, List.mem_filter]
    exact ⟨x, hx, y, ⟨hy, by simpa using hyc⟩, rfl⟩

/-- The right component of any joined row is a row of the right
input. -/
theorem joinInner_right_mem {α β : Type} {xs : List (String × α)} {ys : List (String × β)}
    {p : String × α × β} (hp : p ∈ joinInner xs ys) :
    ∃ y ∈ ys, p.2.2 = y.2 := by
  simp only [joinInner, List.mem_flatMap, List.mem_map, List.mem_filter] at hp
  obtain ⟨x, hx, y, ⟨hy, hyx⟩, rfl⟩ := hp
  exact ⟨y, hy, rfl⟩

/-
Claims.
-/

/-- Claim C5: the date parsing shared by both fetchers maps the string
2025-09-29T11:20:00CEST to the naive timestamp 2025-09-29 11:20:00, the
timezone name being stripped, and every string the parser rejects
becomes the null marker instead of an exception. -/
theorem parse_date_cest_naive_and_null_on_failure :
    parse_date_safe (.str "2025-09-29T11:20:00CEST") =
      .time ⟨2025, 9, 29, 11, 20, 0, none⟩
    ∧ ∀ s : String, dateutilParse s = .error () →
        parse_date_safe (.str s) = .nan := by
  refine ⟨by decide, ?_⟩
  intro s h
  simp [parse_date_safe, h]

/-- Witness for claim C5 at the unparseable string. -/
theorem parse_date_cest_naive_and_null_on_failure_w :
    dateutilParse "not a date" = .error ()
    ∧ parse_date_safe (.str "not a date") = .nan :=
  ⟨rfl, parse_date_cest_naive_and_null_on_failure.2 "not a date" rfl⟩

/-- Claim C7: the Alto Adige fetcher never reads its date argument:
for any two dates it issues the same two requests, whose URLs and
query parameters are fixed constants, and over the same parsed
responses it returns the same table. -/
theorem fetchA_ignores_date_argument :
    (∀ d : String, altoAdigeRequests d = altoAdigeRequests "")
    ∧ (∀ d1 d2 : String, ∀ (ms : List (String × AMeas)) (ss : List (String × AStation)),
        fetchAltoAdigeData d1 ms ss = fetchAltoAdigeData d2 ms ss) :=
  ⟨fun _ => rfl, fun _ _ _ _ => rfl⟩

/-- Claim C9: a date argument with fewer than three dash-separated
pieces makes the Trentino fetcher raise an IndexError while building
the request parameters, and with three or more pieces the raw pieces
are passed through and the fetch proceeds with no calendar
validation. -/
theorem fetchT_short_date_index_error_no_validation :
    ∀ (date : String) (ms : List (String × TMeas)) (ss : List (String × TStationRaw)),
      ((pySplitDash date).length < 3 →
        fetchTrentinoData date ms ss = .error "IndexError")
      ∧ (∀ a m g rest, pySplitDash date = a :: m :: g :: rest →
          trentinoParams date = .ok [("anno", a), ("mese", m), ("giorno", g)]
          ∧ ∃ f, fetchTrentinoData date ms ss = .ok f) := by
  intro date ms ss
  constructor
  · intro h
    unfold fetchTrentinoData trentinoParams
    rcases hsp : pySplitDash date with _ | ⟨a, _ | ⟨m, _ | ⟨g, rest⟩⟩⟩
    · rfl
    · rfl
    · rfl
    · rw [hsp] at h
      simp at h
      omega
  · intro a m g rest hsp
    have hp : trentinoParams date = .ok [("anno", a), ("mese", m), ("giorno", g)] := by
      unfold trentinoParams
      rw [hsp]
    refine ⟨hp, ?_⟩
    unfold fetchTrentinoData
    rw [hp]
    exact ⟨_, rfl⟩

/-- Witness for claim C9 at a one-piece date and at an arbitrary
three-piece non-calendar date. -/
theorem fetchT_short_date_index_error_no_validation_w :
    fetchTrentinoData "20250930" [] [] = .error "IndexError"
    ∧ (trentinoParams "foo-bar-baz" = .ok [("anno", "foo"), ("mese", "bar"), ("giorno", "baz")]
        ∧ ∃ f, fetchTrentinoData "foo-bar-baz" [] [] = .ok f) :=
  ⟨(fetchT_short_date_index_error_no_validation "20250930" [] []).1 (by decide),
   (fetchT_short_date_index_error_no_validation "foo-bar-baz" [] []).2
     "foo" "bar" "baz" [] rfl⟩

/-- The date-parsing pass over the measurement table leaves the station
codes unchanged. -/
theorem parseDatesA_codes (ms : List (String × AMeas)) (c : String) :
    (∃ x ∈ parseDatesA ms, x.1 = c) ↔ (∃ x ∈ ms, x.1 = c) := by
  constructor
  · rintro ⟨x, hx, rfl⟩
    simp only [parseDatesA, List.mem_map] at hx
    obtain ⟨z, hz, rfl⟩ := hx
    exact ⟨z, hz, rfl⟩
  · rintro ⟨x, hx, rfl⟩
    refine ⟨(x.1, { x.2 with date := parse_date_safe x.2.date }), ?_, rfl⟩
    simp only [parseDatesA, List.mem_map]
    exact ⟨x, hx, rfl⟩

/-- Claim C1: in the Alto Adige fetcher, the inner join that produces
the returned table keeps exactly the station codes occurring in both
the measurement table and the station table, and after the final null
drop every returned row is free of nulls in every column, in
particular in hs, latitude and longitude. -/
theorem fetchA_join_intersection_and_no_nulls :
    ∀ (date : String) (ms : List (String × AMeas)) (ss : List (String × AStation)),
      (∀ c : String,
        (∃ p ∈ joinInner (parseDatesA ms) ss, p.1 = c) ↔
          ((∃ x ∈ ms, x.1 = c) ∧ (∃ y ∈ ss, y.1 = c)))
      ∧ ∀ r ∈ fetchAltoAdigeData date ms ss, aRowHasNan r = false := by
  intro date ms ss
  constructor
  · intro c
    rw [joinInner_codes, parseDatesA_codes]
  · intro r hr
    unfold fetchAltoAdigeData at hr
    rw [List.mem_filter] at hr
    simpa using hr.2

/-- Witness for claim C1 at a concrete pair of tables whose only
common code is S1. -/
theorem fetchA_join_intersection_and_no_nulls_w :
    ((∃ p ∈ joinInner
        (parseDatesA [("S1", (⟨.str "2025-09-29T11:20:00CEST", .num 3⟩ : AMeas)),
                      ("S2", ⟨.str "bad", .num 4⟩)])
        [("S1", (⟨.str "N", .str "I", .str "E", .num 10, .num 46⟩ : AStation))], p.1 = "S1") ↔
      ((∃ x ∈ [("S1", (⟨.str "2025-09-29T11:20:00CEST", .num 3⟩ : AMeas)),
               ("S2", ⟨.str "bad", .num 4⟩)], x.1 = "S1")
       ∧ (∃ y ∈ [("S1", (⟨.str "N", .str "I", .str "E", .num 10, .num 46⟩ : AStation))],
            y.1 = "S1")))
    ∧ aRowHasNan ⟨.time ⟨2025, 9, 29, 11, 20, 0, none⟩, .num 3, .str "N", .str "I",
        .str "E", .num 10, .num 46⟩ = false :=
  ⟨(fetchA_join_intersection_and_no_nulls "2025-09-29"
      [("S1", ⟨.str "2025-09-29T11:20:00CEST", .num 3⟩), ("S2", ⟨.str "bad", .num 4⟩)]
      [("S1", ⟨.str "N", .str "I", .str "E", .num 10, .num 46⟩)]).1 "S1",
   (fetchA_join_intersection_and_no_nulls "2025-09-29"
      [("S1", ⟨.str "2025-09-29T11:20:00CEST", .num 3⟩), ("S2", ⟨.str "bad", .num 4⟩)]
      [("S1", ⟨.str "N", .str "I", .str "E", .num 10, .num 46⟩)]).2
     ⟨.time ⟨2025, 9, 29, 11, 20, 0, none⟩, .num 3, .str "N", .str "I", .str "E",
       .num 10, .num 46⟩ (by decide)⟩

/-- Claim C2: every successful Trentino fetch returns a table with
exactly the eight columns date, hs, hn, name_it, name_en, name_de,
longitude, latitude in that order, with name_en and name_de equal to
name_it in every row, and with no null drop after the join: the row
count equals the join row count. -/
theorem fetchT_eight_columns_copied_names_no_dropna :
    ∀ (date : String) (ms : List (String × TMeas)) (ss : List (String × TStationRaw))
      (f : Frame), fetchTrentinoData date ms ss = .ok f →
      f.cols = ["date", "hs", "hn", "name_it", "name_en", "name_de", "longitude", "latitude"]
      ∧ (∀ row ∈ f.rows, row[4]? = row[3]? ∧ row[5]? = row[3]?)
      ∧ f.rows.length = (trentinoJoined ms ss).length := by
  intro date ms ss f hf
  unfold fetchTrentinoData at hf
  cases htp : trentinoParams date with
  | error e => rw [htp] at hf; cases hf
  | ok ps =>
    rw [htp] at hf
    injection hf with hf
    subst hf
    refine ⟨rfl, ?_, by simp⟩
    intro row hrow
    simp only [List.mem_map] at hrow
    obtain ⟨x, hx, rfl⟩ := hrow
    obtain ⟨y, hy, hys⟩ := joinInner_right_mem hx
    simp only [processTStations, List.mem_map] at hy
    obtain ⟨z, hz, rfl⟩ := hy
    rw [hys]
    exact ⟨rfl, rfl⟩

/-- Witness for claim C2 at a concrete fetch whose returned row keeps a
null hn. -/
theorem fetchT_eight_columns_copied_names_no_dropna_w :
    fetchTrentinoData "2025-09-30"
        [("21MB", ⟨.str "2025-09-30T00:00:00", .num 0, .nan⟩)]
        [("21MB", ⟨.str "BISSINA", .num 46, .num 10⟩)] =
      .ok ⟨["date", "hs", "hn", "name_it", "name_en", "name_de", "longitude", "latitude"],
        [[.time ⟨2025, 9, 30, 0, 0, 0, none⟩, .num 0, .nan, .str "BISSINA", .str "BISSINA",
          .str "BISSINA", .num 10, .num 46]]⟩
    ∧ (⟨["date", "hs", "hn", "name_it", "name_en", "name_de", "longitude", "latitude"],
        [[.time ⟨2025, 9, 30, 0, 0, 0, none⟩, .num 0, .nan, .str "BISSINA", .str "BISSINA",
          .str "BISSINA", .num 10, .num 46]]⟩ : Frame).cols =
        ["date", "hs", "hn", "name_it", "name_en", "name_de", "longitude", "latitude"] :=
  ⟨rfl,
   (fetchT_eight_columns_copied_names_no_dropna "2025-09-30"
      [("21MB", ⟨.str "2025-09-30T00:00:00", .num 0, .nan⟩)]
      [("21MB", ⟨.str "BISSINA", .num 46, .num 10⟩)]
      ⟨["date", "hs", "hn", "name_it", "name_en", "name_de", "longitude", "latitude"],
        [[.time ⟨2025, 9, 30, 0, 0, 0, none⟩, .num 0, .nan, .str "BISSINA", .str "BISSINA",
          .str "BISSINA", .num 10, .num 46]]⟩ rfl).1⟩

/-- Finding a key in a column list zipped with a function of itself
succeeds at the function value of the key. -/
theorem find?_zip_self_map (l : List String) (f : String → Val) (c : String) (hc : c ∈ l) :
    (l.zip (l.map f)).find? (fun p => p.1 == c) = some (c, f c) := by
  induction l with
  | nil => cases hc
  | cons d l ih =>
    by_cases hdc : d = c
    · subst hdc
      simp [List.find?]
    · have hc2 : c ∈ l := by
        cases hc with
        | head => exact absurd rfl hdc
        | tail _ h => exact h
      have hb : (d == c) = false := by simp [hdc]
      simpa [List.find?, hb] using ih hc2

/-- Finding a key absent from the column list of a zip fails. -/
theorem find?_zip_not_mem (l : List String) (r : List Val) (c : String) (hc : c ∉ l) :
    (l.zip r).find? (fun p => p.1 == c) = none := by
  induction l generalizing r with
  | nil => simp
  | cons d l ih =>
    cases r with
    | nil => simp
    | cons v r =>
      have hdc : d ≠ c := fun h => hc (h ▸ List.mem_cons_self d l)
      have hc2 : c ∉ l := fun h => hc (List.mem_cons_of_mem d h)
      have hb : (d == c) = false := by simp [hdc]
      simpa [List.find?, hb] using ih r hc2

/-- Membership in the left part of a column union. -/
theorem mem_colUnion_left {c : String} (c1 c2 : List String) (h : c ∈ c1) :
    c ∈ colUnion c1 c2 :=
  List.mem_append_left _ h

/-- Membership in the right part of a column union. -/
theorem mem_colUnion_right {c : String} (c1 c2 : List String) (h : c ∈ c2) :
    c ∈ colUnion c1 c2 := by
  by_cases h1 : c ∈ c1
  · exact List.mem_append_left _ h1
  · refine List.mem_append_right _ ?_
    rw [List.mem_filter]
    exact ⟨h, by simp [h1]⟩

/-- A cell of the concatenation in a row coming from the left frame is
the aligned cell of that row. -/
theorem concat_cell_left (a b : IFrame) (i : Nat) (c : String) (row : List Val)
    (hrow : a.rows[i]? = some row) (hc : c ∈ colUnion a.cols b.cols) :
    (concatIgnoreIndex a b).cell i c = some (alignCell a.cols row c) := by
  have hi : i < a.rows.length := by
    by_contra hlt
    rw [List.getElem?_eq_none (by omega)] at hrow
    cases hrow
  unfold IFrame.cell concatIgnoreIndex
  simp only
  rw [List.getElem?_append_left (by simpa using hi), List.getElem?_map, hrow]
  simp only [Option.map_some', Option.some_bind, alignRow]
  rw [find?_zip_self_map _ _ _ hc]
  rfl

/-- A cell of the concatenation in a row coming from the right frame is
the aligned cell of that row. -/
theorem concat_cell_right (a b : IFrame) (j : Nat) (c : String) (row : List Val)
    (hrow : b.rows[j]? = some row) (hc : c ∈ colUnion a.cols b.cols) :
    (concatIgnoreIndex a b).cell (a.rows.length + j) c = some (alignCell b.cols row c) := by
  unfold IFrame.cell concatIgnoreIndex
  simp only
  rw [List.getElem?_append_right (by simp)]
  simp only [List.length_map]
  have hsub : a.rows.length + j - a.rows.length = j := by omega
  rw [hsub, List.getElem?_map, hrow]
  simp only [Option.map_some', Option.some_bind, alignRow]
  rw [find?_zip_self_map _ _ _ hc]
  rfl

/-- Claim C3: concatenating two frames with M and N rows yields M plus
N rows under a fresh contiguous zero-based index, independent of the
input indices, and a column present in only one input is filled with
the null marker in every row coming from the other input. -/
theorem concat_counts_fresh_index_null_fill :
    ∀ a b : IFrame,
      (concatIgnoreIndex a b).rows.length = a.rows.length + b.rows.length
      ∧ (concatIgnoreIndex a b).index =
          (List.range (a.rows.length + b.rows.length)).map Int.ofNat
      ∧ (∀ ia ib : List Int,
          concatIgnoreIndex ⟨a.cols, ia, a.rows⟩ ⟨b.cols, ib, b.rows⟩ = concatIgnoreIndex a b)
      ∧ (∀ c, c ∈ b.cols → c ∉ a.cols → ∀ i, i < a.rows.length →
          (concatIgnoreIndex a b).cell i c = some Val.nan)
      ∧ (∀ c, c ∈ a.cols → c ∉ b.cols → ∀ j, j < b.rows.length →
          (concatIgnoreIndex a b).cell (a.rows.length + j) c = some Val.nan) := by
  intro a b
  refine ⟨by simp [concatIgnoreIndex], rfl, fun ia ib => rfl, ?_, ?_⟩
  · intro c hcb hca i hi
    obtain ⟨row, hrow⟩ : ∃ row, a.rows[i]? = some row := by
      rw [List.getElem?_eq_getElem hi]
      exact ⟨_, rfl⟩
    rw [concat_cell_left a b i c row hrow (mem_colUnion_right _ _ hcb)]
    unfold alignCell
    rw [find?_zip_not_mem _ _ _ hca]
  · intro c hca hcb j hj
    obtain ⟨row, hrow⟩ : ∃ row, b.rows[j]? = some row := by
      rw [List.getElem?_eq_getElem hj]
      exact ⟨_, rfl⟩
    rw [concat_cell_right a b j c row hrow (mem_colUnion_left _ _ hca)]
    unfold alignCell
    rw [find?_zip_not_mem _ _ _ hcb]

/-- Witness for claim C3 at two concrete one-row frames with disjoint
extra columns and nonzero input indices. -/
theorem concat_counts_fresh_index_null_fill_w :
    (concatIgnoreIndex ⟨["date", "hs"], [7], [[.num 1, .num 2]]⟩
        ⟨["date", "hn"], [9], [[.num 3, .num 4]]⟩).cell 0 "hn" = some Val.nan
    ∧ (concatIgnoreIndex ⟨["date", "hs"], [7], [[.num 1, .num 2]]⟩
        ⟨["date", "hn"], [9], [[.num 3, .num 4]]⟩).cell 1 "hs" = some Val.nan :=
  ⟨((concat_counts_fresh_index_null_fill ⟨["date", "hs"], [7], [[.num 1, .num 2]]⟩
      ⟨["date", "hn"], [9], [[.num 3, .num 4]]⟩).2.2.2.1 "hn" (by decide) (by decide)
      0 (by decide)),
   ((concat_counts_fresh_index_null_fill ⟨["date", "hs"], [7], [[.num 1, .num 2]]⟩
      ⟨["date", "hn"], [9], [[.num 3, .num 4]]⟩).2.2.2.2 "hs" (by decide) (by decide)
      0 (by decide))⟩

/-- Claim C10: the concatenation preserves source order and row
content: a cell of row i of the first frame reappears unchanged at row
i of the result, and a cell of row j of the second frame reappears
unchanged at row M plus j, M the first frame row count. -/
theorem concat_preserves_source_rows :
    ∀ (a b : IFrame) (i : Nat) (c : String) (v : Val),
      (a.cell i c = some v → (concatIgnoreIndex a b).cell i c = some v)
      ∧ (b.cell i c = some v →
          (concatIgnoreIndex a b).cell (a.rows.length + i) c = some v) := by
  intro a b i c v
  constructor
  · intro h
    unfold IFrame.cell at h
    cases hrow : a.rows[i]? with
    | none => rw [hrow] at h; cases h
    | some row =>
      rw [hrow] at h
      simp only [Option.some_bind] at h
      obtain ⟨p, hfind, hv⟩ := Option.map_eq_some'.mp h
      have hpc : p.1 = c := by simpa using List.find?_some hfind
      have hcl : c ∈ a.cols := by
        have := (List.of_mem_zip (List.mem_of_find?_eq_some hfind)).1
        rwa [hpc] at this
      rw [concat_cell_left a b i c row hrow (mem_colUnion_left _ _ hcl)]
      unfold alignCell
      rw [hfind]
      exact congrArg some hv
  · intro h
    unfold IFrame.cell at h
    cases hrow : b.rows[i]? with
    | none => rw [hrow] at h; cases h
    | some row =>
      rw [hrow] at h
      simp only [Option.some_bind] at h
      obtain ⟨p, hfind, hv⟩ := Option.map_eq_some'.mp h
      have hpc : p.1 = c := by simpa using List.find?_some hfind
      have hcl : c ∈ b.cols := by
        have := (List.of_mem_zip (List.mem_of_find?_eq_some hfind)).1
        rwa [hpc] at this
      rw [concat_cell_right a b i c row hrow (mem_colUnion_right _ _ hcl)]
      unfold alignCell
      rw [hfind]
      exact congrArg some hv

/-- Witness for claim C10 at the same concrete pair of frames. -/
theorem concat_preserves_source_rows_w :
    (concatIgnoreIndex ⟨["date", "hs"], [7], [[.num 1, .num 2]]⟩
        ⟨["date", "hn"], [9], [[.num 3, .num 4]]⟩).cell 0 "hs" = some (.num 2)
    ∧ (concatIgnoreIndex ⟨["date", "hs"], [7], [[.num 1, .num 2]]⟩
        ⟨["date", "hn"], [9], [[.num 3, .num 4]]⟩).cell 1 "date" = some (.num 3) :=
  ⟨((concat_preserves_source_rows ⟨["date", "hs"], [7], [[.num 1, .num 2]]⟩
      ⟨["date", "hn"], [9], [[.num 3, .num 4]]⟩ 0 "hs" (.num 2)).1 (by decide)),
   ((concat_preserves_source_rows ⟨["date", "hs"], [7], [[.num 1, .num 2]]⟩
      ⟨["date", "hn"], [9], [[.num 3, .num 4]]⟩ 0 "date" (.num 3)).2 (by decide))⟩

/-- A fully valid row yields a record, whose source is the passed tag
and whose name and code are the chain values. -/
theorem buildRecord_ok_of_essNum (source mdate : String) (r : PyRow) (h : essNum r) :
    ∃ rcd, buildRecord source mdate r = .ok rcd
      ∧ rcd.source = source
      ∧ rcd.station_name = pyStr (stationNameOf r)
      ∧ rcd.station_code = pyStr (stationCodeOf source r) := by
  obtain ⟨⟨qh, hh⟩, ⟨ql, hl⟩, ⟨qo, ho⟩⟩ := h
  refine ⟨{ station_code := pyStr (stationCodeOf source r),
            station_name := pyStr (stationNameOf r),
            latitude := .num ql, longitude := .num qo, hs := .num qh,
            measurement_date := mdate, source := source,
            hn := if optFieldGuard r "hn" then optFieldValue r "hn" else none,
            elevation :=
              if optFieldGuard r "elevation" then optFieldValue r "elevation"
              else if optFieldGuard r "ALT" then optFieldValue r "ALT" else none },
         ?_, rfl, rfl, rfl⟩
  simp only [buildRecord, hh, hl, ho, pyFloat]

/-- When every row is skipped the record loop returns the empty
batch. -/
theorem buildRecords_all_skipped (source mdate : String) (df : List PyRow)
    (h : ∀ r ∈ df, skipRow r = true) : buildRecords source mdate df = .ok [] := by
  induction df with
  | nil => rfl
  | cons r rest ih =>
    have hr := h r (List.mem_cons_self r rest)
    simp only [buildRecords, hr, if_true]
    exact ih (fun x hx => h x (List.mem_cons_of_mem _ hx))

/-- When every non-skipped row is fully valid, the record loop returns
one record per non-skipped row, each carrying the passed source tag. -/
theorem buildRecords_ok (source mdate : String) (df : List PyRow)
    (h : ∀ r ∈ df, skipRow r = false → essNum r) :
    ∃ rcds, buildRecords source mdate df = .ok rcds
      ∧ rcds.length = (df.filter (fun r => !skipRow r)).length
      ∧ ∀ rcd ∈ rcds, rcd.source = source := by
  induction df with
  | nil => exact ⟨[], rfl, rfl, by simp⟩
  | cons r rest ih =>
    obtain ⟨rcds, hok, hlen, hsrc⟩ := ih (fun x hx => h x (List.mem_cons_of_mem _ hx))
    cases hs : skipRow r with
    | true =>
      refine ⟨rcds, ?_, ?_, hsrc⟩
      · simpa [buildRecords, hs] using hok
      · simpa [List.filter_cons, hs] using hlen
    | false =>
      obtain ⟨rcd, hrcd, hsrc1, _, _⟩ :=
        buildRecord_ok_of_essNum source mdate r (h r (List.mem_cons_self r rest) hs)
      refine ⟨rcd :: rcds, ?_, ?_, ?_⟩
      · simp [buildRecords, hs, hrcd, hok]
      · simp [List.filter_cons, hs, hlen]
      · intro x hx
        rcases List.mem_cons.mp hx with rfl | hxx
        · exact hsrc1
        · exact hsrc x hxx

/-- The fully successful path of the uploader, made explicit. -/
theorem upload_success_eq (df : List PyRow) (source mdate : String) (resp : HttpResp)
    (rcds : List UploadRecord) (hne : df ≠ [])
    (hbr : buildRecords source mdate df = .ok rcds) (hemp : rcds.isEmpty = false)
    (hrok : resp.ok = true) :
    upload df source mdate resp = (.ok ⟨rcds.length, source, some mdate⟩, some rcds,
      ["Successfully uploaded " ++ toString rcds.length ++ " records for " ++ source]) := by
  cases df with
  | nil => exact absurd rfl hne
  | cons r rest => simp [upload, hbr, hemp, hrok]

/-- Claim C4: the uploader skips rows with a null essential cell; an
empty table, or a table whose rows are all skipped, returns zero
uploaded for the source with no network call; the POST body, when one
is sent, holds one record per non-skipped row with the passed source
tag, a single fully valid row giving exactly one record; on success the
uploaded count is the number of records sent. -/
theorem upload_zero_guards_and_count :
    ∀ (df : List PyRow) (source mdate : String) (resp : HttpResp),
      (∀ r ∈ df, skipRow r = false → essNum r) →
      resp.ok = true →
      ((df = [] → upload df source mdate resp =
          (.ok ⟨0, source, none⟩, none, ["No data to upload for " ++ source]))
       ∧ ((∀ r ∈ df, skipRow r = true) →
            (upload df source mdate resp).1 = .ok ⟨0, source, none⟩
            ∧ (upload df source mdate resp).2.1 = none)
       ∧ (∀ rcds, (upload df source mdate resp).2.1 = some rcds →
            (upload df source mdate resp).1 = .ok ⟨rcds.length, source, some mdate⟩
            ∧ rcds.length = (df.filter (fun r => !skipRow r)).length
            ∧ ∀ rcd ∈ rcds, rcd.source = source)
       ∧ (∀ r, df = [r] → skipRow r = false →
            ∃ rcd, (upload df source mdate resp).2.1 = some [rcd]
              ∧ rcd.source = source)) := by
  intro df source mdate resp hnum hok
  refine ⟨?_, ?_, ?_, ?_⟩
  · intro h
    subst h
    rfl
  · intro hall
    cases df with
    | nil => exact ⟨rfl, rfl⟩
    | cons r rest =>
      have hbr : buildRecords source mdate (r :: rest) = .ok [] :=
        buildRecords_all_skipped _ _ _ hall
      constructor <;> simp [upload, hbr]
  · intro rcds hpost
    obtain ⟨rcds2, hbr, hlen2, hsrc2⟩ := buildRecords_ok source mdate df hnum
    cases df with
    | nil => simp [upload] at hpost
    | cons r rest =>
      cases hemp : rcds2.isEmpty with
      | true =>
        rw [List.isEmpty_iff] at hemp
        subst hemp
        simp [upload, hbr] at hpost
      | false =>
        rw [upload_success_eq (r :: rest) source mdate resp rcds2 (by simp) hbr hemp hok]
          at hpost ⊢
        injection hpost with hpost
        subst hpost
        exact ⟨rfl, hlen2, hsrc2⟩
  · intro r hdf hskip
    subst hdf
    obtain ⟨rcd, hrcd, hsrc1, _, _⟩ :=
      buildRecord_ok_of_essNum source mdate r (hnum r (List.mem_cons_self r []) hskip)
    have hbr : buildRecords source mdate [r] = .ok [rcd] := by
      simp [buildRecords, hskip, hrcd]
    refine ⟨rcd, ?_, hsrc1⟩
    rw [upload_success_eq [r] source mdate resp [rcd] (by simp) hbr (by simp) hok]

/-- Witness for claim C4 at a one-row table whose hs is null (zero
uploaded, no call) and a one-row fully valid table (one record, tagged
with the source). -/
theorem upload_zero_guards_and_count_w :
    ((upload [⟨0, [("hs", .nan), ("latitude", .num 46), ("longitude", .num 11)]⟩]
        "alto_adige" "2025-01-01" ⟨true, ""⟩).1 = .ok ⟨0, "alto_adige", none⟩
      ∧ (upload [⟨0, [("hs", .nan), ("latitude", .num 46), ("longitude", .num 11)]⟩]
          "alto_adige" "2025-01-01" ⟨true, ""⟩).2.1 = none)
    ∧ ∃ rcd, (upload [⟨0, [("hs", .num 5), ("latitude", .num 46), ("longitude", .num 11)]⟩]
        "trentino" "2025-01-01" ⟨true, ""⟩).2.1 = some [rcd] ∧ rcd.source = "trentino" :=
  ⟨(upload_zero_guards_and_count
      [⟨0, [("hs", .nan), ("latitude", .num 46), ("longitude", .num 11)]⟩]
      "alto_adige" "2025-01-01" ⟨true, ""⟩
      (by
        intro r hr hs
        simp only [List.mem_singleton] at hr
        subst hr
        exact absurd hs (by decide))
      rfl).2.1
      (by
        intro r hr
        simp only [List.mem_singleton] at hr
        subst hr
        decide),
   (upload_zero_guards_and_count
      [⟨0, [("hs", .num 5), ("latitude", .num 46), ("longitude", .num 11)]⟩]
      "trentino" "2025-01-01" ⟨true, ""⟩
      (by
        intro r hr hs
        simp only [List.mem_singleton] at hr
        subst hr
        exact ⟨⟨5, rfl⟩, ⟨46, rfl⟩, ⟨11, rfl⟩⟩)
      rfl).2.2.2
      ⟨0, [("hs", .num 5), ("latitude", .num 46), ("longitude", .num 11)]⟩ rfl (by decide)⟩

/-- Counterexample to claim C6: a non-skipped row whose three name
columns are all present but null does not get the synthesized fallback
Station_0; the Python or chain treats the NaN as truthy, and the record
keeps the string nan as its station name. -/
theorem upload_nan_names_not_fallback_cex :
    (upload [⟨0, [("hs", .num 5), ("latitude", .num 46), ("longitude", .num 11),
        ("name_it", .nan), ("name_de", .nan), ("name_en", .nan)]⟩]
      "alto_adige" "2025-01-01" ⟨true, ""⟩).2.1 =
      some [{ station_code := "alto_adige_0", station_name := "nan",
              latitude := .num 46, longitude := .num 11, hs := .num 5,
              measurement_date := "2025-01-01", source := "alto_adige",
              hn := none, elevation := none }]
    ∧ "nan" ≠ "Station_0" :=
  ⟨rfl, by decide⟩

/-- Claim C6 as amended: for a fully valid non-skipped row, the station
name is the first Python-truthy value among name_it, name_de, name_en,
stringified, where a missing column or an empty string falls through
but a present null is truthy and is used; only when all three are falsy
is the fallback Station_ and the row index synthesized. The station
code likewise takes the first truthy of station_code and SCODE, else
the source tag and the row index. -/
theorem upload_name_code_truthiness_chain :
    ∀ (r : PyRow) (source mdate : String) (resp : HttpResp),
      skipRow r = false → essNum r → resp.ok = true →
      ∃ rcd, (upload [r] source mdate resp).2.1 = some [rcd]
        ∧ (pyTruthyObj (r.get "name_it") = true →
            ∃ v, r.get "name_it" = some v ∧ rcd.station_name = pyStr v)
        ∧ (pyTruthyObj (r.get "name_it") = false →
           pyTruthyObj (r.get "name_de") = true →
            ∃ v, r.get "name_de" = some v ∧ rcd.station_name = pyStr v)
        ∧ (pyTruthyObj (r.get "name_it") = false →
           pyTruthyObj (r.get "name_de") = false →
           pyTruthyObj (r.get "name_en") = true →
            ∃ v, r.get "name_en" = some v ∧ rcd.station_name = pyStr v)
        ∧ (pyTruthyObj (r.get "name_it") = false →
           pyTruthyObj (r.get "name_de") = false →
           pyTruthyObj (r.get "name_en") = false →
            rcd.station_name = "Station_" ++ toString r.idx)
        ∧ (pyTruthyObj (r.get "station_code") = true →
            ∃ v, r.get "station_code" = some v ∧ rcd.station_code = pyStr v)
        ∧ (pyTruthyObj (r.get "station_code") = false →
           pyTruthyObj (r.get "SCODE") = true →
            ∃ v, r.get "SCODE" = some v ∧ rcd.station_code = pyStr v)
        ∧ (pyTruthyObj (r.get "station_code") = false →
           pyTruthyObj (r.get "SCODE") = false →
            rcd.station_code = source ++ "_" ++ toString r.idx) := by
  intro r source mdate resp hskip hess hok
  obtain ⟨rcd, hrcd, _, hname, hcode⟩ := buildRecord_ok_of_essNum source mdate r hess
  have hbr : buildRecords source mdate [r] = .ok [rcd] := by
    simp [buildRecords, hskip, hrcd]
  refine ⟨rcd, ?_, ?_, ?_, ?_, ?_, ?_, ?_, ?_⟩
  · rw [upload_success_eq [r] source mdate resp [rcd] (by simp) hbr (by simp) hok]
  · intro ht
    cases hit : r.get "name_it" with
    | none => rw [hit] at ht; simp [pyTruthyObj] at ht
    | some v =>
      rw [hit] at ht
      refine ⟨v, rfl, ?_⟩
      rw [hname]
      simp [stationNameOf, pyOr, hit, ht]
  · intro hf1 ht
    cases hde : r.get "name_de" with
    | none => rw [hde] at ht; simp [pyTruthyObj] at ht
    | some v =>
      rw [hde] at ht
      refine ⟨v, rfl, ?_⟩
      rw [hname]
      simp [stationNameOf, pyOr, hf1, hde, ht]
  · intro hf1 hf2 ht
    cases hen : r.get "name_en" with
    | none => rw [hen] at ht; simp [pyTruthyObj] at ht
    | some v =>
      rw [hen] at ht
      refine ⟨v, rfl, ?_⟩
      rw [hname]
      simp [stationNameOf, pyOr, hf1, hf2, hen, ht]
  · intro hf1 hf2 hf3
    rw [hname]
    simp [stationNameOf, pyOr, hf1, hf2, hf3, pyStr]
  · intro ht
    cases hsc : r.get "station_code" with
    | none => rw [hsc] at ht; simp [pyTruthyObj] at ht
    | some v =>
      rw [hsc] at ht
      refine ⟨v, rfl, ?_⟩
      rw [hcode]
      simp [stationCodeOf, pyOr, hsc, ht]
  · intro hf1 ht
    cases hsc : r.get "SCODE" with
    | none => rw [hsc] at ht; simp [pyTruthyObj] at ht
    | some v =>
      rw [hsc] at ht
      refine ⟨v, rfl, ?_⟩
      rw [hcode]
      simp [stationCodeOf, pyOr, hf1, hsc, ht]
  · intro hf1 hf2
    rw [hcode]
    simp [stationCodeOf, pyOr, hf1, hf2, pyStr]

/-- Witness for the amended claim C6 at a row carrying a truthy Italian
name and no code columns. -/
theorem upload_name_code_truthiness_chain_w :
    ∃ rcd, (upload [⟨3, [("hs", .num 5), ("latitude", .num 46), ("longitude", .num 11),
        ("name_it", .str "ORIS")]⟩] "alto_adige" "2025-01-01" ⟨true, ""⟩).2.1 = some [rcd]
      ∧ (∃ v, PyRow.get ⟨3, [("hs", .num 5), ("latitude", .num 46), ("longitude", .num 11),
          ("name_it", .str "ORIS")]⟩ "name_it" = some v ∧ rcd.station_name = pyStr v)
      ∧ rcd.station_code = "alto_adige" ++ "_" ++ toString (3 : Int) := by
  obtain ⟨rcd, hpost, h1, _, _, _, _, _, h7⟩ :=
    upload_name_code_truthiness_chain
      ⟨3, [("hs", .num 5), ("latitude", .num 46), ("longitude", .num 11),
        ("name_it", .str "ORIS")]⟩ "alto_adige" "2025-01-01" ⟨true, ""⟩
      (by decide) ⟨⟨5, rfl⟩, ⟨46, rfl⟩, ⟨11, rfl⟩⟩ rfl
  exact ⟨rcd, hpost, h1 (by decide), h7 (by decide) (by decide)⟩

/-- Counterexample to claim C8: with a failing upload response for the
first source, the uploader raises, yet the retriever still produces the
concatenated table: the caller catches the exception, logs it, and the
run proceeds to aggregation instead of aborting. -/
theorem retrieve_continues_after_upload_error_cex :
    (upload (toPyRows ⟨["hs", "latitude", "longitude", "name_it"], [0],
        [[.num 5, .num 46, .num 11, .str "A"]]⟩) "alto_adige" "2025-01-01"
      ⟨false, "duplicate key"⟩).1 = .error "HTTPError"
    ∧ (retrieveRun ⟨["hs", "latitude", "longitude", "name_it"], [0],
          [[.num 5, .num 46, .num 11, .str "A"]]⟩
        ⟨["hs", "latitude", "longitude", "name_it"], [0],
          [[.num 7, .num 45, .num 10, .str "B"]]⟩
        true true "2025-01-01" ⟨false, "duplicate key"⟩ ⟨true, ""⟩).1 =
      concatIgnoreIndex ⟨["hs", "latitude", "longitude", "name_it"], [0],
          [[.num 5, .num 46, .num 11, .str "A"]]⟩
        ⟨["hs", "latitude", "longitude", "name_it"], [0],
          [[.num 7, .num 45, .num 10, .str "B"]]⟩
    ∧ "Supabase upload failed: HTTPError" ∈
        (retrieveRun ⟨["hs", "latitude", "longitude", "name_it"], [0],
            [[.num 5, .num 46, .num 11, .str "A"]]⟩
          ⟨["hs", "latitude", "longitude", "name_it"], [0],
            [[.num 7, .num 45, .num 10, .str "B"]]⟩
          true true "2025-01-01" ⟨false, "duplicate key"⟩ ⟨true, ""⟩).2 :=
  ⟨rfl, rfl, by decide⟩

/-- Claim C8 as amended: an HTTP error response makes the uploader log
the response-body detail and re-raise, and the remaining source is then
not uploaded; but the retriever helper catches every exception and only
logs it, so the run always proceeds to aggregation and returns the
concatenated table. -/
theorem upload_error_logged_reraised_caller_catches :
    ∀ (df : List PyRow) (source mdate : String) (resp : HttpResp)
      (rcds : List UploadRecord),
      resp.ok = false →
      (upload df source mdate resp).2.1 = some rcds →
      ((upload df source mdate resp).1 = .error "HTTPError"
       ∧ ("Response: " ++ resp.text) ∈ (upload df source mdate resp).2.2)
      ∧ (∀ (df2 : List PyRow) (r2 : HttpResp) (e : String)
           (p : Option (List UploadRecord)) (ls : List String),
          df ≠ [] →
          upload df "alto_adige" mdate resp = (.error e, p, ls) →
          uploadToSupabaseGuarded df df2 true mdate resp r2 =
            ls ++ ["Supabase upload failed: " ++ e])
      ∧ (∀ (f1 f2 : IFrame) (conf : Bool) (m : String) (r1 r2 : HttpResp),
          (retrieveRun f1 f2 true conf m r1 r2).1 = concatIgnoreIndex f1 f2) := by
  intro df source mdate resp rcds hro hpost
  refine ⟨?_, ?_, fun f1 f2 conf m r1 r2 => rfl⟩
  · cases df with
    | nil => simp [upload] at hpost
    | cons r rest =>
      cases hbr : buildRecords source mdate (r :: rest) with
      | error e => simp [upload, hbr] at hpost
      | ok rcds2 =>
        cases hemp : rcds2.isEmpty with
        | true => simp [upload, hbr, hemp] at hpost
        | false =>
          constructor
          · simp [upload, hbr, hemp, hro]
          · simp [upload, hbr, hemp, hro]
  · intro df2 r2 e p ls hne hupl
    cases df with
    | nil => exact absurd rfl hne
    | cons r rest =>
      simp only [uploadToSupabaseGuarded, Bool.not_true, Bool.false_eq_true, if_false,
        List.isEmpty_cons, hupl]

/-- Witness for the amended claim C8 at a concrete one-row upload with
a failing response. -/
theorem upload_error_logged_reraised_caller_catches_w :
    (upload [⟨0, [("hs", .num 5), ("latitude", .num 46), ("longitude", .num 11)]⟩]
        "alto_adige" "2025-01-01" ⟨false, "boom"⟩).1 = .error "HTTPError"
    ∧ ("Response: " ++ "boom") ∈
        (upload [⟨0, [("hs", .num 5), ("latitude", .num 46), ("longitude", .num 11)]⟩]
          "alto_adige" "2025-01-01" ⟨false, "boom"⟩).2.2 :=
  (upload_error_logged_reraised_caller_catches
    [⟨0, [("hs", .num 5), ("latitude", .num 46), ("longitude", .num 11)]⟩]
    "alto_adige" "2025-01-01" ⟨false, "boom"⟩
    [{ station_code := "alto_adige_0", station_name := "Station_0",
       latitude := .num 46, longitude := .num 11, hs := .num 5,
       measurement_date := "2025-01-01", source := "alto_adige",
       hn := none, elevation := none }]
    rfl rfl).1
